import Mathlib

/-
Verification of the virtbuilder provisioning pipeline (src/virtbuilder.py)
against its specification.  The Python source is shallowly embedded: pure
argument synthesis becomes Lean functions on the declarative specs; stateful
steps (mounts, external commands, the filesystem) become functions of an
explicit world argument (mount-table entry, file-system lookup, command exit
codes) returning the list of issued commands together with a fatal flag.
-/

namespace Virtbuilder

/-
Command executor: subprocess_run_wrapper (virtbuilder.py lines 8-29).
In dry-run mode the command is not executed, the call returns None and the
would-be command line is logged verbatim (space-joined tokens).  Otherwise
the command is spawned; `run` is the world: the result each argv would have.
-/

structure CompletedProcess where
  returncode : Int
  stdout : String
  stderr : String
deriving DecidableEq

def subprocess_run_wrapper (dry_run : Bool) (command : List String)
    (run : List String → CompletedProcess) : Option CompletedProcess × String :=
  let command_str := String.intercalate " " command
  if dry_run then
    (none, "[DRY-RUN] Command: " ++ command_str)
  else
    (some (run command), "[EXECUTING] Command: " ++ command_str)

/-
Definition-generation stage of main (virtbuilder.py lines 510-523):
`vm_ret = subprocess_run_wrapper(virtinstall_cmd, capture_output=True, text=True)`
followed by `if vm_ret.returncode != 0 or vm_ret.stderr:` → sys.exit(1),
else the captured stdout becomes the definition.  When the wrapper returned
None (dry-run), the attribute access `vm_ret.returncode` raises an unhandled
AttributeError, modelled as `crash`.
-/

inductive MainGenResult
  | crash
  | fatalExit
  | ok (xml : String)
deriving DecidableEq

def main_generation (dry_run : Bool) (run : List String → CompletedProcess)
    (virtinstall_cmd : List String) : MainGenResult :=
  match (subprocess_run_wrapper dry_run virtinstall_cmd run).1 with
  | none => MainGenResult.crash
  | some r =>
    if r.returncode ≠ 0 ∨ r.stderr ≠ "" then MainGenResult.fatalExit
    else MainGenResult.ok r.stdout

/-
Ramdisk reconciler (virtbuilder.py lines 55-167).  The world is the mount
table entry at the ramdisk path: `none` when the path is not a mount point,
otherwise the filesystem type plus the kibibyte value of the size= mount
option when present.  has_correct_size compares size_kb / (1024*1024) with
the expected whole-gibibyte size; for the integer kibibyte counts involved
the float comparison in the source is exact, so it equals
size_kb = expected * 1048576.
-/

structure MountEntry where
  fstype : String
  sizeKb : Option Nat
deriving DecidableEq

def is_mountpoint (entry : Option MountEntry) : Bool :=
  entry.isSome

def is_ramdisk (entry : Option MountEntry) : Bool :=
  match entry with
  | some e => e.fstype == "tmpfs"
  | none => false

def has_correct_size (entry : Option MountEntry) (expected_size_gb : Nat) : Bool :=
  match entry with
  | some e =>
    match e.sizeKb with
    | some kb => kb == expected_size_gb * 1048576
    | none => false
  | none => false

inductive RdCmd
  | mkdirP (path : String)
  | mountTmpfs (path : String) (size_gb : Nat)
deriving DecidableEq

structure RdResult where
  cmds : List RdCmd
  fatal : Bool
deriving DecidableEq

def mount_ramdisk (entry : Option MountEntry) (ramdisk_path : String)
    (ramdisk_size : Nat) : RdResult :=
  let need := !(is_mountpoint entry)
  if !need && !(is_ramdisk entry) then ⟨[], true⟩
  else if !need && !(has_correct_size entry ramdisk_size) then ⟨[], true⟩
  else if need then
    ⟨[RdCmd.mkdirP ramdisk_path, RdCmd.mountTmpfs ramdisk_path ramdisk_size], false⟩
  else ⟨[], false⟩

/-
VM teardown: remove_vm (virtbuilder.py lines 169-190).  Each issued command
records its argv, whether check=True was passed to subprocess.run, and
whether stderr was sent to DEVNULL.  A step fails (raises / exits non-zero)
exactly when a command run with check=True exits nonzero; remove_vm passes
check on neither command, so their errors are swallowed.
-/

structure CmdSpec where
  argv : List String
  check : Bool
  stderrDevnull : Bool
deriving DecidableEq

def remove_vm (vm_name : String) : List CmdSpec :=
  [⟨["sudo", "virsh", "--connect=qemu:///system", "destroy", vm_name], false, true⟩,
   ⟨["sudo", "virsh", "--connect=qemu:///system", "undefine", vm_name,
     "--managed-save", "--remove-all-storage", "--delete-storage-volume-snapshots",
     "--snapshots-metadata", "--checkpoints-metadata", "--nvram"], false, true⟩]

def stepFails (exitCode : List String → Int) (cmds : List CmdSpec) : Bool :=
  cmds.any fun c => c.check && (exitCode c.argv != 0)

/-
Disk materializer: create_disk / convert_disk / resize_disk / recreate_disk
(virtbuilder.py lines 192-289).  The filesystem world maps a path to absent,
regular file, or directory; convertOk / resizeOk / createOk are the exit
outcomes of the respective qemu-img commands.  convert_disk catches
CalledProcessError and calls sys.exit(1) (fatal); resize_disk catches it and
only prints (non-fatal); create_disk passes check=True with no handler, so a
failure is an unhandled CalledProcessError (fatal).  recreate_disk enters
conversion mode only when imgfile is given AND os.path.isfile holds; the
inner `not os.path.exists` guard is unreachable because isfile implies
exists.  Blank mode reads disk["size"]; a missing size is a KeyError (fatal
before any command).
-/

inductive FsEntry
  | absent
  | file
  | dir
deriving DecidableEq

def FsEntry.isfile : FsEntry → Bool
  | FsEntry.file => true
  | _ => false

def FsEntry.pathExists : FsEntry → Bool
  | FsEntry.absent => false
  | _ => true

inductive ToolCmd
  | create (uri : String) (size_gb : Nat) (fmt : String)
  | convert (src dst fmt_in fmt_out : String)
  | resize (uri : String) (size_gb : Nat) (fmt : String)
deriving DecidableEq

structure DiskSpec where
  uri : String
  format : String
  size : Option Nat
  imgfile : Option String
  imgformat : String
deriving DecidableEq

structure DiskStepResult where
  cmds : List ToolCmd
  fatal : Bool
deriving DecidableEq

def create_disk (d : DiskSpec) (createOk : Bool) : DiskStepResult :=
  match d.size with
  | some n => ⟨[ToolCmd.create d.uri n d.format], !createOk⟩
  | none => ⟨[], true⟩

def recreate_disk (fs : String → FsEntry) (convertOk resizeOk createOk : Bool)
    (d : DiskSpec) : DiskStepResult :=
  match d.imgfile with
  | some img =>
    if (fs img).isfile then
      if !(fs img).pathExists then ⟨[], true⟩
      else
        let conv := ToolCmd.convert img d.uri d.imgformat d.format
        if convertOk then
          match d.size with
          | some n => ⟨[conv, ToolCmd.resize d.uri n d.format], false⟩
          | none => ⟨[conv], false⟩
        else ⟨[conv], true⟩
    else create_disk d createOk
  | none => create_disk d createOk

/-
Graphics dispatch of the definition synthesizer (virtbuilder.py lines
420-433).  A Python match on string literals is a sequential equality test;
the wildcard case prints an error and exits, modelled as Except.error.
-/

def graphicsArgs (g : String) : Except Unit (List String) :=
  if g = "3d" then
    Except.ok ["--graphics=spice,listen=none,gl.enable=yes",
               "--video=virtio,model.acceleration.accel3d=yes"]
  else if g = "spice" then Except.ok ["--graphics=spice"]
  else if g = "vnc" then Except.ok ["--graphics=vnc"]
  else if g = "serial_console" then Except.ok ["--graphics=none"]
  else Except.error ()

/-
Disk-argument synthesis of main (virtbuilder.py lines 437-450).  Each disk
contributes one --disk snippet; a bus key defaulting to "scsi"; the loop
sets a flag when any disk uses the scsi bus, and after the loop the
--check argument and, when the flag is set, a single virtio-scsi controller
argument are appended.
-/

structure DiskCfg where
  uri : String
  format : String
  bus : Option String
  readonly : Bool
deriving DecidableEq

def diskSnippetBase (d : DiskCfg) : String :=
  "--disk=path=" ++ d.uri ++ ",format=" ++ d.format ++ ",bus=" ++ d.bus.getD "scsi" ++
    ",cache=writethrough,driver.discard=\x27unmap\x27,io=threads,sparse=yes"

def diskSnippet (d : DiskCfg) : String :=
  if d.readonly then diskSnippetBase d ++ ",readonly=yes" else diskSnippetBase d

def scsiControllerArg : String :=
  "--controller=type=scsi,model=virtio-scsi"

def diskArgs (disks : List DiskCfg) : List String :=
  (disks.map diskSnippet) ++ ["--check=disk_size=off"] ++
    (if disks.any (fun d => d.bus.getD "scsi" == "scsi") then [scsiControllerArg] else [])

/-
Definition patcher: set_disk_removable (virtbuilder.py lines 316-333).
A domain definition is its list of disk elements plus the untouched rest of
the document; a disk element records whether a source child exists (and, if
so, its optional file attribute), the optional target child with its
attributes, and opaque remaining content.  The source loop prints
source.attrib.get("file") BEFORE testing source for None, so an element with
no source child raises an unhandled AttributeError: the loop result is
`none`.  Attribute truthiness: a missing attribute and the empty string are
both falsy in `target.attrib.get("dev") and target.attrib.get("bus")`.
-/

structure TargetElem where
  dev : Option String
  bus : Option String
  removable : Option String
deriving DecidableEq

structure DiskElem where
  sourceFile : Option (Option String)
  target : Option TargetElem
  rest : String
deriving DecidableEq

structure DomainDef where
  disks : List DiskElem
  rest : String
deriving DecidableEq

def truthy : Option String → Bool
  | none => false
  | some s => s != ""

def patchElem (uri : String) (e : DiskElem) : Option DiskElem :=
  match e.sourceFile with
  | none => none
  | some f =>
    if f == some uri then
      match e.target with
      | some t =>
        if truthy t.dev && truthy t.bus then
          some ⟨e.sourceFile, some ⟨t.dev, t.bus, some "on"⟩, e.rest⟩
        else some e
      | none => some e
    else some e

def patchDisks (uri : String) : List DiskElem → Option (List DiskElem)
  | [] => some []
  | e :: es =>
    match patchElem uri e with
    | none => none
    | some e2 =>
      match patchDisks uri es with
      | none => none
      | some es2 => some (e2 :: es2)

def set_disk_removable (xml : DomainDef) (uri : String) : Option DomainDef :=
  match patchDisks uri xml.disks with
  | none => none
  | some ds => some ⟨ds, xml.rest⟩

/--
Modelled from the spec: the per-element behavior section 4.6 describes for
the patcher — set the removable attribute exactly on an element whose source
path matches the disk URI and whose device target already has both a device
name and a bus; leave every other element unchanged and raise no error.
Used to state the refinement the (corrected) claim C6 asserts.
-/
def specPatch (uri : String) (e : DiskElem) : DiskElem :=
  match e.target with
  | some t =>
    if e.sourceFile == some (some uri) && truthy t.dev && truthy t.bus then
      ⟨e.sourceFile, some ⟨t.dev, t.bus, some "on"⟩, e.rest⟩
    else e
  | none => e

/-
Theorems settling the claims.
-/

/--
Claim C1. The claim states that a DiskSpec in conversion mode whose source
image is absent fails fatally before any disk-toolkit command and never
falls back to blank allocation.  The code does the opposite: with the
source image absent, the `os.path.isfile` guard routes the spec into the
blank branch, a qemu-img create is issued, and the step succeeds; the fatal
branch for a missing image (lines 273-275) is unreachable.  This theorem
evaluates the embedded step at the failing input.
-/
theorem C1_missing_source_blank_fallback :
    recreate_disk (fun _ => FsEntry.absent) true true true
        ⟨"/tmp/d.qcow2", "qcow2", some 10, some "/img/src.raw", "raw"⟩ =
      ⟨[ToolCmd.create "/tmp/d.qcow2" 10 "qcow2"], false⟩ := rfl

/--
Claim C2. The claim states that with simulation active every stage
completes, merely logging its would-execute line.  The wrapper indeed
executes nothing and logs the exact space-joined command, but at the
definition-generation stage main dereferences the returned None
(`vm_ret.returncode`), so the pipeline crashes with an AttributeError
instead of completing.  This theorem evaluates the embedded wrapper and
generation stage under dry-run at a concrete command.
-/
theorem C2_dry_run_crash :
    (subprocess_run_wrapper true ["sudo", "virt-install", "--connect=qemu:///system"]
        (fun _ => ⟨0, "xml", ""⟩)).1 = none ∧
    (subprocess_run_wrapper true ["sudo", "virt-install", "--connect=qemu:///system"]
        (fun _ => ⟨0, "xml", ""⟩)).2 =
      "[DRY-RUN] Command: sudo virt-install --connect=qemu:///system" ∧
    main_generation true (fun _ => ⟨0, "xml", ""⟩)
        ["sudo", "virt-install", "--connect=qemu:///system"] = MainGenResult.crash := by
  refine ⟨rfl, ?_, rfl⟩
  decide

/--
Claim C3, counterexample. The claim states that graphics mode "headless"
yields a no-display-device argument rather than a fatal error; in the code
the no-display mode is spelled "serial_console" and "headless" falls into
the wildcard case, which exits fatally.
-/
theorem C3_headless_fatal_counterexample :
    graphicsArgs "headless" = Except.error () := rfl

/--
Claim C3, amended: for every VmSpec whose graphics mode is one of
{3d, spice, vnc, serial_console}, synthesis produces the corresponding
display argument — serial_console yields the no-display argument — and any
graphics mode outside that set (including "headless") aborts fatally.
-/
theorem C3_graphics_dispatch (g : String) :
    graphicsArgs "3d" = Except.ok ["--graphics=spice,listen=none,gl.enable=yes",
      "--video=virtio,model.acceleration.accel3d=yes"] ∧
    graphicsArgs "spice" = Except.ok ["--graphics=spice"] ∧
    graphicsArgs "vnc" = Except.ok ["--graphics=vnc"] ∧
    graphicsArgs "serial_console" = Except.ok ["--graphics=none"] ∧
    (graphicsArgs g = Except.error () ↔
      g ≠ "3d" ∧ g ≠ "spice" ∧ g ≠ "vnc" ∧ g ≠ "serial_console") := by
  refine ⟨rfl, rfl, rfl, rfl, ?_⟩
  unfold graphicsArgs
  split_ifs with h1 h2 h3 h4 <;> simp_all

/--
Claim C7. Teardown never fails: both virsh commands (forced stop and
undefine-with-cleanup) are issued without check, so a nonzero exit from
either — in particular "domain does not exist" — is swallowed, whatever the
command outcomes are; hence tearing down an absent name, or the same name
twice in a row, succeeds every time.
-/
theorem C7_teardown_swallows_errors (exitCode : List String → Int) (vm_name : String) :
    stepFails exitCode (remove_vm vm_name) = false := by
  simp [stepFails, remove_vm]

/--
Claim C4. Reconciling a RamdiskSpec whose path is already a tmpfs mount of
exactly the requested whole-gibibyte size issues no mkdir and no mount
command and does not error (so a second reconcile of the unchanged mount
behaves identically); reconciling against a mount point whose filesystem
type is not tmpfs or whose size differs from the requested one exits
fatally without issuing any command.
-/
theorem C4_ramdisk_reconcile (e : MountEntry) (path : String) (size : Nat) :
    ((e.fstype = "tmpfs" ∧ e.sizeKb = some (size * 1048576)) →
      mount_ramdisk (some e) path size = ⟨[], false⟩) ∧
    ((e.fstype ≠ "tmpfs" ∨ e.sizeKb ≠ some (size * 1048576)) →
      mount_ramdisk (some e) path size = ⟨[], true⟩) := by
  constructor
  · rintro ⟨h1, h2⟩
    simp [mount_ramdisk, is_mountpoint, is_ramdisk, has_correct_size, h1, h2]
  · intro h
    rcases h with h | h
    · simp [mount_ramdisk, is_mountpoint, is_ramdisk, h]
    · rcases hk : e.sizeKb with _ | kb
      · simp [mount_ramdisk, is_mountpoint, is_ramdisk, has_correct_size, hk]
      · have hne : kb ≠ size * 1048576 := by
          intro he
          exact h (by rw [hk, he])
        simp [mount_ramdisk, is_mountpoint, is_ramdisk, has_correct_size, hk, hne]

/--
Claim C4, witness: a tmpfs mount entry of exactly 1 GiB (1048576 kB)
reconciles as a no-op, while an ext4 entry of the same size is refused
fatally with no command issued.
-/
theorem C4_witness :
    mount_ramdisk (some ⟨"tmpfs", some 1048576⟩) "/mnt/vm-ramdisk" 1 = ⟨[], false⟩ ∧
    mount_ramdisk (some ⟨"ext4", some 1048576⟩) "/mnt/vm-ramdisk" 1 = ⟨[], true⟩ :=
  ⟨(C4_ramdisk_reconcile ⟨"tmpfs", some 1048576⟩ "/mnt/vm-ramdisk" 1).1 ⟨rfl, rfl⟩,
   (C4_ramdisk_reconcile ⟨"ext4", some 1048576⟩ "/mnt/vm-ramdisk" 1).2
     (Or.inl (by decide))⟩

/--
Claim C8. In an executed (non-simulated) run, the definition-generation
stage fails fatally exactly when the virt-install command exits nonzero or
writes anything to stderr — so a zero exit with non-empty stderr is still a
failure — and on success the captured stdout becomes the definition.
-/
theorem C8_generation_failure_iff (run : List String → CompletedProcess)
    (cmd : List String) :
    (main_generation false run cmd = MainGenResult.fatalExit ↔
      ((run cmd).returncode ≠ 0 ∨ (run cmd).stderr ≠ "")) ∧
    ((run cmd).returncode = 0 → (run cmd).stderr = "" →
      main_generation false run cmd = MainGenResult.ok (run cmd).stdout) := by
  unfold main_generation subprocess_run_wrapper
  simp only [if_neg (by simp : ¬ (false = true))]
  constructor
  · constructor
    · intro h
      by_contra hc
      push_neg at hc
      rw [if_neg (by simp [hc.1, hc.2])] at h
      exact MainGenResult.noConfusion h
    · intro h
      rw [if_pos h]
  · intro h1 h2
    rw [if_neg (by simp [h1, h2])]

/--
Claim C8, witness: a zero exit status with non-empty stderr is treated as a
fatal failure of the definition-generation stage.
-/
theorem C8_witness :
    main_generation false (fun _ => ⟨0, "xml", "warning"⟩)
      ["sudo", "virt-install"] = MainGenResult.fatalExit :=
  (C8_generation_failure_iff (fun _ => ⟨0, "xml", "warning"⟩)
    ["sudo", "virt-install"]).1.mpr (Or.inr (by decide))

/--
Claim C9. For a DiskSpec in conversion mode (source image given and present
as a regular file) with a target size: a failing conversion command is
fatal and the step stops after the conversion command, while after a
successful conversion the resize command is issued and the step succeeds
regardless of the resize outcome — the pipeline continues with the disk
possibly unresized.
-/
theorem C9_convert_fatal_resize_nonfatal (fs : String → FsEntry) (d : DiskSpec)
    (img : String) (n : Nat) (h1 : d.imgfile = some img)
    (h2 : (fs img).isfile = true) (h3 : d.size = some n) :
    (∀ rOk cOk, recreate_disk fs false rOk cOk d =
      ⟨[ToolCmd.convert img d.uri d.imgformat d.format], true⟩) ∧
    (∀ rOk cOk, recreate_disk fs true rOk cOk d =
      ⟨[ToolCmd.convert img d.uri d.imgformat d.format,
        ToolCmd.resize d.uri n d.format], false⟩) := by
  have hex : (fs img).pathExists = true := by
    cases hf : fs img <;> simp_all [FsEntry.isfile, FsEntry.pathExists]
  constructor
  · intro rOk cOk
    simp [recreate_disk, h1, h2, hex, h3]
  · intro rOk cOk
    simp [recreate_disk, h1, h2, hex, h3]

/--
Claim C9, witness: with the source image present, a successful conversion
followed by a failing resize still yields a non-fatal step that issued both
the convert and the resize command.
-/
theorem C9_witness :
    recreate_disk (fun _ => FsEntry.file) true false true
        ⟨"/tmp/d.qcow2", "qcow2", some 20, some "/img/base.raw", "raw"⟩ =
      ⟨[ToolCmd.convert "/img/base.raw" "/tmp/d.qcow2" "raw" "qcow2",
        ToolCmd.resize "/tmp/d.qcow2" 20 "qcow2"], false⟩ :=
  (C9_convert_fatal_resize_nonfatal (fun _ => FsEntry.file)
    ⟨"/tmp/d.qcow2", "qcow2", some 20, some "/img/base.raw", "raw"⟩
    "/img/base.raw" 20 rfl rfl rfl).2 false true

/--
Helper: the length of a disk snippet base in terms of its variable parts.
-/
theorem diskSnippetBase_length (d : DiskCfg) :
    (diskSnippetBase d).length =
      d.uri.length + d.format.length + (d.bus.getD "scsi").length + 89 := by
  have e1 : ("--disk=path=" : String).length = 12 := rfl
  have e2 : (",format=" : String).length = 8 := rfl
  have e3 : (",bus=" : String).length = 5 := rfl
  have e4 : (",cache=writethrough,driver.discard=\x27unmap\x27,io=threads,sparse=yes" :
      String).length = 64 := rfl
  unfold diskSnippetBase
  rw [String.length_append, String.length_append, String.length_append,
    String.length_append, String.length_append, String.length_append,
    e1, e2, e3, e4]
  omega

/--
Helper: no disk snippet can be the virtio-scsi controller argument, because
every snippet is strictly longer.
-/
theorem diskSnippet_ne_controller (d : DiskCfg) : diskSnippet d ≠ scsiControllerArg := by
  intro h
  have hl := congrArg String.length h
  have hs : scsiControllerArg.length = 40 := rfl
  have hb := diskSnippetBase_length d
  unfold diskSnippet at hl
  by_cases hr : d.readonly = true
  · rw [if_pos hr, String.length_append] at hl
    have e5 : (",readonly=yes" : String).length = 13 := rfl
    omega
  · rw [if_neg hr] at hl
    omega

/--
Helper: the mapped snippet list never contains the controller argument.
-/
theorem count_snippets_controller_zero (l : List DiskCfg) :
    (l.map diskSnippet).count scsiControllerArg = 0 := by
  rw [List.count_eq_zero]
  intro h
  rcases List.mem_map.mp h with ⟨d, _, he⟩
  exact diskSnippet_ne_controller d he

/--
Claim C5. The synthesized disk-argument list contains the virtio-scsi
controller argument exactly once when at least one disk sits on the scsi
bus (disks without a bus field default to scsi), whatever the number of
scsi disks, and not at all when no disk does.
-/
theorem C5_scsi_controller_exactly_once (disks : List DiskCfg) :
    (diskArgs disks).count scsiControllerArg =
      if ∃ d ∈ disks, d.bus.getD "scsi" = "scsi" then 1 else 0 := by
  unfold diskArgs
  have hchk : (("--check=disk_size=off" : String) == scsiControllerArg) = false := by decide
  by_cases h : ∃ d ∈ disks, d.bus.getD "scsi" = "scsi"
  · have ha : disks.any (fun d => d.bus.getD "scsi" == "scsi") = true := by
      rw [List.any_eq_true]
      obtain ⟨d, hd, he⟩ := h
      exact ⟨d, hd, by simp [he]⟩
    simp [ha, h, List.count_append, count_snippets_controller_zero,
      List.count_cons, List.count_nil, hchk]
  · have ha : disks.any (fun d => d.bus.getD "scsi" == "scsi") = false := by
      rw [Bool.eq_false_iff]
      intro hc
      rcases List.any_eq_true.mp hc with ⟨d, hd, he⟩
      exact h ⟨d, hd, by simpa using he⟩
    simp [ha, h, List.count_append, count_snippets_controller_zero,
      List.count_cons, List.count_nil, hchk]

/--
Helper: on an element that does have a source child, the code patch agrees
with the per-element behavior the spec describes.
-/
theorem patchElem_eq_spec (uri : String) (e : DiskElem)
    (h : e.sourceFile.isSome = true) :
    patchElem uri e = some (specPatch uri e) := by
  rcases hs : e.sourceFile with _ | f
  · rw [hs] at h
    exact absurd h (by simp)
  · have hfe : (some f == some (some uri)) = (f == some uri) := rfl
    unfold patchElem specPatch
    rw [hs]
    rcases ht : e.target with _ | t
    · by_cases hf : (f == some uri) = true <;> simp [hf]
    · by_cases hf : (f == some uri) = true
      · by_cases hd : (truthy t.dev && truthy t.bus) = true <;>
          simp [hf, hd, hfe, hs]
      · simp [hf, hfe]

/--
Helper: when every element has a source child, the element loop returns the
spec-described patch of every element, in order, with no error.
-/
theorem patchDisks_eq_map (uri : String) (l : List DiskElem)
    (h : ∀ e ∈ l, e.sourceFile.isSome = true) :
    patchDisks uri l = some (l.map (specPatch uri)) := by
  induction l with
  | nil => rfl
  | cons a l ih =>
    have ha := patchElem_eq_spec uri a (h a (by simp))
    have hl := ih (fun e he => h e (by simp [he]))
    simp [patchDisks, ha, hl]

/--
Claim C6, counterexample.  The claim asserts that for every generated
definition the patcher leaves non-patched elements unchanged and raises no
error; but a definition containing a disk element with no source child
makes the patcher read `source.attrib` on None before the None test, an
unhandled error (modelled as `none`).
-/
theorem C6_sourceless_element_errors :
    set_disk_removable ⟨[⟨none, none, "cdrom-without-source"⟩], "domain"⟩
      "/vm/os.qcow2" = none := rfl

/--
Claim C6, amended: for every generated definition in which each storage
element has a source child, and every disk flagged removable, the patcher
raises no error and rewrites each element exactly as the spec describes —
the removable attribute is set only on an element whose source path matches
the disk path and whose device target already has both a device name and a
bus, and every other element (non-matching path, or incomplete device
target) is returned unchanged; an element with no source child instead
raises an unhandled error.
-/
theorem C6_removable_patch_scoped (xml : DomainDef) (uri : String)
    (h : ∀ e ∈ xml.disks, e.sourceFile.isSome = true) :
    set_disk_removable xml uri = some ⟨xml.disks.map (specPatch uri), xml.rest⟩ := by
  unfold set_disk_removable
  rw [patchDisks_eq_map uri xml.disks h]

/--
Claim C6, witness: a three-element definition — a matching element with a
complete device target, a matching element without a device target, and a
non-matching element — is patched without error; only the first element
gains the removable attribute and the other two are returned unchanged.
-/
theorem C6_witness :
    set_disk_removable
        ⟨[⟨some (some "/vm/data.qcow2"), some ⟨some "sda", some "scsi", none⟩, "a"⟩,
          ⟨some (some "/vm/data.qcow2"), none, "b"⟩,
          ⟨some (some "/vm/other.qcow2"), some ⟨some "sdb", some "scsi", none⟩, "c"⟩],
         "dom"⟩ "/vm/data.qcow2" =
      some ⟨[⟨some (some "/vm/data.qcow2"), some ⟨some "sda", some "scsi", some "on"⟩, "a"⟩,
             ⟨some (some "/vm/data.qcow2"), none, "b"⟩,
             ⟨some (some "/vm/other.qcow2"), some ⟨some "sdb", some "scsi", none⟩, "c"⟩],
            "dom"⟩ := by
  rw [C6_removable_patch_scoped _ "/vm/data.qcow2" (by decide)]
  rfl

/--
Helper: the element loop errors as soon as some element lacks a source
child.
-/
theorem patchDisks_none_of_sourceless (uri : String) (l : List DiskElem)
    (h : ∃ e ∈ l, e.sourceFile = none) :
    patchDisks uri l = none := by
  induction l with
  | nil => simp at h
  | cons a l ih =>
    rcases h with ⟨e, he, hs⟩
    rcases List.mem_cons.mp he with rfl | hmem
    · simp [patchDisks, patchElem, hs]
    · rcases hp : patchElem uri a with _ | a2
      · simp [patchDisks, hp]
      · simp [patchDisks, hp, ih ⟨e, hmem, hs⟩]

/--
Claim C10. The patcher is not total: for every definition containing a disk
element with no source child, patching any removable-flagged disk against
it raises an unhandled error (the source element file attribute is read
before the element is tested for absence), modelled as result `none`.
-/
theorem C10_patcher_crashes_on_sourceless (xml : DomainDef) (uri : String)
    (h : ∃ e ∈ xml.disks, e.sourceFile = none) :
    set_disk_removable xml uri = none := by
  unfold set_disk_removable
  rw [patchDisks_none_of_sourceless uri xml.disks h]

/--
Claim C10, witness: a definition whose second disk element lacks a source
child makes the patcher error even though the first element is perfectly
well-formed.
-/
theorem C10_witness :
    set_disk_removable
        ⟨[⟨some (some "/tmp/a.qcow2"), some ⟨some "vda", some "virtio", none⟩, "ok"⟩,
          ⟨none, some ⟨some "sr0", some "sata", none⟩, "floppy"⟩], "doc"⟩
      "/tmp/a.qcow2" = none :=
  C10_patcher_crashes_on_sourceless _ "/tmp/a.qcow2"
    ⟨⟨none, some ⟨some "sr0", some "sata", none⟩, "floppy"⟩, by decide, rfl⟩

end Virtbuilder
